import Mathlib

/-!
Verification of the skufobot scheduling and delivery core.

Shallow embedding of the Python sources:
* `src/scheduler.py`   — `SimpleScheduler` (start, daily loop, broadcast fan-out,
  `_get_seconds_until_target_time`)
* `src/telegram_utils.py` — `send_gif_message` (retry loop)
* `src/services.py`    — `GifService` (`find_random_gif_by_day`, `save_gif`)
* `src/repositories.py` — `ChatRepository.get_all_subscriber_ids`, `GifRepository`
* `src/models.py`      — `SkufGif` dataclass with its day-of-week validation

Python `datetime` values in the configured fixed-offset timezone are modelled as a
day index plus microseconds-of-day; machine behaviour that can raise is modelled
with `Except`; the Telegram transport is modelled as a function from the index of
the send call to the response the transport gives to that call.
-/

namespace Skufobot

/-! ### Civil time (src/scheduler.py, `_get_seconds_until_target_time`)

`datetime.now(TIMEZONE)` is a wall-clock instant in a fixed-offset zone
(Europe/Moscow has no DST transitions), modelled as a calendar day index and the
number of microseconds elapsed since that day's midnight. -/

/-- Microseconds in one calendar day. -/
def microPerDay : Nat := 86400000000

/-- A wall-clock instant: calendar day index plus microseconds since midnight.
Well-formed instants satisfy `micro < microPerDay`. -/
structure CivilTime where
  day : Nat
  micro : Nat
deriving DecidableEq

/-- Absolute time of an instant, in microseconds since day 0's midnight. -/
def absMicro (t : CivilTime) : Nat :=
  t.day * microPerDay + t.micro

/-- Microsecond-of-day of `now.replace(hour=hour, minute=minute, second=0,
microsecond=0)`. -/
def targetMicroOfDay (hour minute : Nat) : Nat :=
  (hour * 3600 + minute * 60) * 1000000

/-- `SimpleScheduler._get_seconds_until_target_time` (src/scheduler.py lines
339-348), in microseconds: `target = now.replace(hour, minute, 0, 0)`;
`if target <= now: target += timedelta(days=1)`; `return target - now`.
The Python function returns `(target - now).total_seconds()`, a nonnegative
float; the value here is the same duration scaled to integer microseconds. -/
def nextTarget (hour minute : Nat) (now : CivilTime) : CivilTime :=
  if absMicro ⟨now.day, targetMicroOfDay hour minute⟩ ≤ absMicro now then
    ⟨now.day + 1, targetMicroOfDay hour minute⟩
  else
    ⟨now.day, targetMicroOfDay hour minute⟩

/-- The returned wait, `target - now`, in microseconds. -/
def get_seconds_until_target_time (hour minute : Nat) (now : CivilTime) : Int :=
  (absMicro (nextTarget hour minute now) : Int) - (absMicro now : Int)

/-! ### Delivery with retry (src/telegram_utils.py, `send_gif_message`)

The transport is a function from the index of the send call (0-based count of
`bot.send_animation` invocations made so far in this delivery) to the response
the transport gives to that call. -/

/-- Possible responses of one `bot.send_animation` call, as classified by the
`except` clauses of `send_gif_message`. -/
inductive TgResp where
  | success
  | timedOut
  | retryAfter (w : Nat)
  | badRequest (msg : String)
  | networkError
  | otherError
deriving DecidableEq

/-- Observable result of one `send_gif_message` call: the returned boolean, the
number of send attempts performed, and the list of sleep durations (seconds)
in the order they were awaited. -/
structure SendTrace where
  ok : Bool
  calls : Nat
  sleeps : List Nat
deriving DecidableEq

/-- The `for attempt in range(max_retries)` loop of `send_gif_message`
(src/telegram_utils.py lines 62-111).  `remaining` is the number of loop
iterations still available (initially `max_retries`), `attempt` the current
0-based loop index, `calls` the number of send calls already made.

* success → `return True`;
* `TimedOut` → if `attempt < max_retries - 1` sleep `(attempt+1)*5` and
  continue, else `return False`;
* `RetryAfter w` → sleep `w` and continue (falling out of the loop returns
  `False` at line 111);
* `BadRequest` → `return False` (for a "chat not found" message and any other
  message alike; the string only selects the log line);
* `NetworkError` → if `attempt < max_retries - 1` sleep 5 and continue, else
  `return False`;
* any other exception → `return False`. -/
def sendGifLoop (transport : Nat → TgResp) (max_retries : Nat) :
    Nat → Nat → Nat → SendTrace
  | 0, _, calls => ⟨false, calls, []⟩
  | remaining + 1, attempt, calls =>
    match transport calls with
    | .success => ⟨true, calls + 1, []⟩
    | .timedOut =>
      if attempt < max_retries - 1 then
        let r := sendGifLoop transport max_retries remaining (attempt + 1) (calls + 1)
        ⟨r.ok, r.calls, (attempt + 1) * 5 :: r.sleeps⟩
      else ⟨false, calls + 1, []⟩
    | .retryAfter w =>
      let r := sendGifLoop transport max_retries remaining (attempt + 1) (calls + 1)
      ⟨r.ok, r.calls, w :: r.sleeps⟩
    | .badRequest _ => ⟨false, calls + 1, []⟩
    | .networkError =>
      if attempt < max_retries - 1 then
        let r := sendGifLoop transport max_retries remaining (attempt + 1) (calls + 1)
        ⟨r.ok, r.calls, 5 :: r.sleeps⟩
      else ⟨false, calls + 1, []⟩
    | .otherError => ⟨false, calls + 1, []⟩

/-- `send_gif_message(bot, chat_id, file_id, caption, max_retries)`: run the
retry loop with `max_retries` available iterations, starting at attempt 0 with
no calls made. -/
def send_gif_message (transport : Nat → TgResp) (max_retries : Nat) : SendTrace :=
  sendGifLoop transport max_retries max_retries 0 0

/-! ### Broadcast fan-out (src/scheduler.py, `send_daily_gif_message` and
`run_daily_mailing`) -/

/-- Outcome of delivering to one recipient inside the broadcast loop, as
classified by the per-recipient `except` clauses of `send_daily_gif_message`:
success, a raised `BadRequest`, or any other raised exception. -/
inductive DailyResp where
  | ok
  | badRequest (msg : String)
  | raised (msg : String)
deriving DecidableEq

/-- Observable result of one broadcast run: the two counters and the list of
recipients a delivery was attempted for, in order. -/
structure BroadcastResult where
  sent : Nat
  failed : Nat
  attempted : List Int
deriving DecidableEq

/-- The per-recipient loop of `send_daily_gif_message` (src/scheduler.py lines
122-139): each `chat_id` gets one delivery attempt inside its own
`try`/`except`; success increments `sent_count`, a `BadRequest` or any other
exception increments `failed_count`, and the loop then proceeds to the next
recipient. -/
def dailyGifLoop (send : Int → DailyResp) : List Int → BroadcastResult
  | [] => ⟨0, 0, []⟩
  | c :: rest =>
    let r := dailyGifLoop send rest
    match send c with
    | .ok => ⟨r.sent + 1, r.failed, c :: r.attempted⟩
    | .badRequest _ => ⟨r.sent, r.failed + 1, c :: r.attempted⟩
    | .raised _ => ⟨r.sent, r.failed + 1, c :: r.attempted⟩

/-- `send_daily_gif_message` (src/scheduler.py lines 108-145): with the
subscriber snapshot `chat_ids` and today's optional GIF, each recipient is sent
the GIF (when present) or the fallback text (when absent); the loop is the one
of `dailyGifLoop`.  `sendGif`/`sendText` give the transport's outcome for the
two kinds of message. -/
def send_daily_gif_message (gif : Option Unit) (sendGif sendText : Int → DailyResp)
    (chat_ids : List Int) : BroadcastResult :=
  dailyGifLoop (fun c => match gif with | some _ => sendGif c | none => sendText c) chat_ids

/-! ### Subscriber snapshot (src/repositories.py, `get_all_subscriber_ids`) -/

/-- One row of `SELECT chat_id FROM chat_subscriber`. -/
structure SubscriberRow where
  chat_id : Int
deriving DecidableEq

/-- `ChatRepository.get_all_subscriber_ids` (src/repositories.py lines 66-74):
the body enters `async with self.db.session() as conn:` first, and only the
fetch of the rows runs inside the `try`.  `acquire` is the outcome of the
session acquisition (database.py lines 47-57: `connect()` re-raises on
failure, line 39, and `pool.acquire()` can also raise) — its exception occurs
outside the `try` and propagates out of the function.  `fetch` is the outcome
of `conn.fetch`: an `ok` fetch yields `[row['chat_id'] for row in rows]`, and
an exception raised by the fetch is caught, logged, and replaced by the empty
list. -/
def get_all_subscriber_ids (acquire : Except String Unit)
    (fetch : Except String (List SubscriberRow)) : Except String (List Int) :=
  match acquire with
  | .error e => .error e
  | .ok _ =>
    match fetch with
    | .ok rows => .ok (rows.map SubscriberRow.chat_id)
    | .error _ => .ok []

/-- The per-recipient loop of `run_daily_mailing` (src/scheduler.py lines
91-104): each recipient's delivery runs in its own `try`/`except`; success
increments `success_count`, any exception is logged and the loop continues. -/
def mailingLoop (send : Int → DailyResp) : List Int → Nat
  | [] => 0
  | c :: rest =>
    (match send c with | .ok => 1 | .badRequest _ => 0 | .raised _ => 0) +
      mailingLoop send rest

/-- `run_daily_mailing` (src/scheduler.py lines 73-106): take the subscriber
snapshot from `get_all_subscriber_ids` (line 81, not wrapped in any `try`, so
an exception it raises propagates out of `run_daily_mailing`); if the snapshot
is empty, log a warning and return without sending; otherwise run the delivery
loop.  The `ok` result is the pair (`success_count`, number of recipients
contacted). -/
def run_daily_mailing (gif : Option Unit) (sendGif sendText : Int → DailyResp)
    (acquire : Except String Unit) (fetch : Except String (List SubscriberRow)) :
    Except String (Nat × Nat) :=
  match get_all_subscriber_ids acquire fetch with
  | .error e => .error e
  | .ok subscribers =>
    if subscribers.isEmpty then .ok (0, 0)
    else
      .ok (mailingLoop (fun c => match gif with | some _ => sendGif c | none => sendText c)
             subscribers,
           subscribers.length)

/-- The body of one `_daily_loop` cycle after its sleep (src/scheduler.py
lines 243-256): run the mailing; an exception raised by it is caught by the
loop's handler, which logs the error and sleeps 60 seconds before the next
cycle.  Result: the mailing's counters when it returned, or `none` when it
raised, paired with the recovery sleeps performed. -/
def dailyLoopCycle (mailing : Except String (Nat × Nat)) :
    Option (Nat × Nat) × List Nat :=
  match mailing with
  | .ok r => (some r, [])
  | .error _ => (none, [60])

/-! ### GIF model and content lookup (src/models.py, src/services.py,
src/repositories.py) -/

/-- Python exceptions that the modelled fragments can raise. -/
inductive PyErr where
  | valueError
  | dbError (msg : String)
deriving DecidableEq

/-- The `SkufGif` dataclass (src/models.py lines 29-42). -/
structure SkufGif where
  id : Option Nat
  file_id : Option String
  description : Option String
  day_of_week : Option Int
deriving DecidableEq

/-- Constructing `SkufGif(...)`: `__post_init__` raises `ValueError` when
`day_of_week` is not `None` and lies outside `1..7`. -/
def SkufGif.mk? (id : Option Nat) (file_id description : Option String)
    (day_of_week : Option Int) : Except PyErr SkufGif :=
  match day_of_week with
  | some d =>
    if d < 1 ∨ d > 7 then .error .valueError
    else .ok ⟨id, file_id, description, some d⟩
  | none => .ok ⟨id, file_id, description, none⟩

/-- `GifService.find_random_gif_by_day` (src/services.py lines 55-65): when
`day < 1 or day > 7` the function logs a warning and returns `None`; otherwise
it returns the repository's answer (itself already `None`-on-error, see
`GifRepository.find_random_gif_by_day`).  The `Except` codomain records that
the body raises nothing. -/
def find_random_gif_by_day (repo : Int → Option SkufGif) (day : Int) :
    Except PyErr (Option SkufGif) :=
  if day < 1 ∨ day > 7 then .ok none
  else .ok (repo day)

/-! ### GIF store (src/repositories.py `GifRepository`, src/services.py
`GifService.save_gif`) -/

/-- In-memory model of the `skuf_gif` table: its rows plus the next value of
the serial `id` column. -/
structure GifStore where
  rows : List SkufGif
  next_id : Nat
deriving DecidableEq

/-- `GifRepository.find_by_file_id` (src/repositories.py lines 140-155):
`SELECT * FROM skuf_gif WHERE file_id = $1` returning the first matching row
or `None`. -/
def find_by_file_id (store : GifStore) (fid : String) : Option SkufGif :=
  store.rows.find? (fun r => r.file_id = some fid)

/-- `GifRepository.save` (src/repositories.py lines 157-189) for a gif with
`id is None`: `INSERT ... RETURNING id` assigns the fresh serial id, and the
returned object carries it.  (The `id is not None` update branch is not
reached from `save_gif`, which always builds a fresh record.) -/
def GifRepository.save (store : GifStore) (gif : SkufGif) : GifStore × SkufGif :=
  match gif.id with
  | none =>
    let g : SkufGif := { gif with id := some store.next_id }
    (⟨store.rows ++ [g], store.next_id + 1⟩, g)
  | some _ =>
    (⟨store.rows.map (fun r => if r.id = gif.id then gif else r), store.next_id⟩, gif)

/-- `GifService.save_gif` (src/services.py lines 71-94): look up `file_id`;
when a record exists return it and leave the store untouched; otherwise build
`SkufGif(file_id=file_id, description=description, day_of_week=day)` (whose
validation may raise `ValueError`) and insert it via `GifRepository.save`. -/
def save_gif (store : GifStore) (file_id : String) (description : Option String)
    (day : Option Int) : Except PyErr (GifStore × SkufGif) :=
  match find_by_file_id store file_id with
  | some existing => .ok (store, existing)
  | none =>
    match SkufGif.mk? none (some file_id) description day with
    | .error e => .error e
    | .ok new_gif => .ok (GifRepository.save store new_gif)

/-! ### Scheduler state (src/scheduler.py, `SimpleScheduler.start`) -/

/-- The kinds of task that can live in `SimpleScheduler._scheduled_tasks`:
the daily loop, the debug-mode smart-wait test loop, and (modelled from the
spec) a custom interval job. -/
inductive Job where
  | dailyLoop
  | smartTest
  | custom (interval : Int)
deriving DecidableEq

/-- The mutable state of a `SimpleScheduler` instance: `is_running` and
`_scheduled_tasks` (src/scheduler.py lines 26-33; `debug_mode` is fixed at
construction from the settings). -/
structure SchedulerState where
  is_running : Bool
  debug_mode : Bool
  scheduled_tasks : List Job
deriving DecidableEq

/-- The state of a freshly constructed scheduler (`__init__`). -/
def SchedulerState.init (debug : Bool) : SchedulerState :=
  ⟨false, debug, []⟩

/-- `SimpleScheduler.start` (src/scheduler.py lines 35-60): when not running,
set the flag, create the daily-loop task, and in debug mode also the
smart-wait test task, appending them to `_scheduled_tasks`; when already
running, only a warning-free log path — the state is untouched. -/
def start (s : SchedulerState) : SchedulerState :=
  if s.is_running then s
  else
    { s with
      is_running := true,
      scheduled_tasks :=
        s.scheduled_tasks ++ [Job.dailyLoop] ++
          (if s.debug_mode then [Job.smartTest] else []) }

/-! ### Custom task registration (modelled from the spec)

`SkufBot.handle_test_schedule` (src/bot.py line 275) calls
`self.scheduler.add_custom_task(10, test_task)`, but `SimpleScheduler` in
src/scheduler.py has no such method: the implementation is missing from the
sources, so it is modelled from the spec here. -/

/-- Errors surfaced synchronously by scheduler entry points. -/
inductive SchedErr where
  | invalidArgument
deriving DecidableEq

/-- Observable events of a custom job's loop. -/
inductive JobEvent where
  | wait (interval : Int)
  | invoke
deriving DecidableEq

/-- Modelled from the spec: the loop `add_custom_task` wraps the action in —
"repeatedly awaits the interval then invokes `action`, guarded by the
scheduler's running flag so it stops cooperatively when the scheduler stops"
(spec §4.1).  `running j` is the scheduler's running flag as observed at the
start of the loop's j-th iteration; `fuel` bounds the number of iterations
unrolled. -/
def customTaskLoop (running : Nat → Bool) (interval : Int) : Nat → List JobEvent
  | 0 => []
  | fuel + 1 =>
    if running 0 then
      .wait interval :: .invoke ::
        customTaskLoop (fun n => running (n + 1)) interval fuel
    else []

/-- Modelled from the spec: `add_custom_task(interval, action)` — "validates
`interval > 0` (fails with `InvalidArgument` otherwise); ... appends the
resulting task to the managed set" (spec §4.1).  The registered job's loop
semantics is `customTaskLoop`. -/
def add_custom_task (s : SchedulerState) (interval : Int) :
    Except SchedErr SchedulerState :=
  if interval ≤ 0 then .error .invalidArgument
  else .ok { s with scheduled_tasks := s.scheduled_tasks ++ [Job.custom interval] }

/-! ## Theorems -/

/-- Claim C1: for every target `(hour, minute)` and every current instant
`now`, the wait computed by `_get_seconds_until_target_time` is strictly
positive, never exceeds 24 hours, and the implied fire instant `now + wait` is
exactly `(hour, minute, 0)` today when today's target time-of-day is still
strictly ahead of `now`, and on the next calendar day otherwise; the returned
value is exactly `target - now`.  (Durations in microseconds.) -/
theorem C1_next_daily_fire (hour minute : Nat) (now : CivilTime)
    (hh : hour ≤ 23) (hm : minute ≤ 59) (hmi : now.micro < microPerDay) :
    0 < get_seconds_until_target_time hour minute now ∧
    get_seconds_until_target_time hour minute now ≤ (86400000000 : Int) ∧
    (absMicro now : Int) + get_seconds_until_target_time hour minute now =
      (absMicro ⟨if now.micro < targetMicroOfDay hour minute then now.day
                 else now.day + 1,
                 targetMicroOfDay hour minute⟩ : Int) := by
  simp only [get_seconds_until_target_time, nextTarget, absMicro, targetMicroOfDay,
    microPerDay] at *
  split_ifs <;> push_cast <;> omega

/-- Witness for C1 at `(hour, minute) = (8, 30)` and `now` = midnight of day 0. -/
theorem C1_next_daily_fire_witness :
    0 < get_seconds_until_target_time 8 30 ⟨0, 0⟩ ∧
    get_seconds_until_target_time 8 30 ⟨0, 0⟩ ≤ (86400000000 : Int) ∧
    (absMicro ⟨0, 0⟩ : Int) + get_seconds_until_target_time 8 30 ⟨0, 0⟩ =
      (absMicro ⟨if (0 : Nat) < targetMicroOfDay 8 30 then 0 else 0 + 1,
                 targetMicroOfDay 8 30⟩ : Int) :=
  C1_next_daily_fire 8 30 ⟨0, 0⟩ (by decide) (by decide) (by decide)

/-- A transport that answers the first send call with a rate-limit signal
carrying wait `w` and every later call with success. -/
def rlThenSuccess (w : Nat) : Nat → TgResp :=
  fun n => if n = 0 then TgResp.retryAfter w else TgResp.success

/-- One-step unfolding of the retry loop when an iteration is available. -/
theorem sendGifLoop_succ (transport : Nat → TgResp) (k remaining attempt calls : Nat) :
    sendGifLoop transport k (remaining + 1) attempt calls =
      match transport calls with
      | .success => ⟨true, calls + 1, []⟩
      | .timedOut =>
        if attempt < k - 1 then
          ⟨(sendGifLoop transport k remaining (attempt + 1) (calls + 1)).ok,
           (sendGifLoop transport k remaining (attempt + 1) (calls + 1)).calls,
           (attempt + 1) * 5 ::
             (sendGifLoop transport k remaining (attempt + 1) (calls + 1)).sleeps⟩
        else ⟨false, calls + 1, []⟩
      | .retryAfter w =>
        ⟨(sendGifLoop transport k remaining (attempt + 1) (calls + 1)).ok,
         (sendGifLoop transport k remaining (attempt + 1) (calls + 1)).calls,
         w :: (sendGifLoop transport k remaining (attempt + 1) (calls + 1)).sleeps⟩
      | .badRequest _ => ⟨false, calls + 1, []⟩
      | .networkError =>
        if attempt < k - 1 then
          ⟨(sendGifLoop transport k remaining (attempt + 1) (calls + 1)).ok,
           (sendGifLoop transport k remaining (attempt + 1) (calls + 1)).calls,
           5 :: (sendGifLoop transport k remaining (attempt + 1) (calls + 1)).sleeps⟩
        else ⟨false, calls + 1, []⟩
      | .otherError => ⟨false, calls + 1, []⟩ := rfl

/-- One-step unfolding when the current send call times out. -/
theorem sendGifLoop_timedOut_step (transport : Nat → TgResp)
    (k remaining attempt calls : Nat) (h : transport calls = TgResp.timedOut) :
    sendGifLoop transport k (remaining + 1) attempt calls =
      if attempt < k - 1 then
        ⟨(sendGifLoop transport k remaining (attempt + 1) (calls + 1)).ok,
         (sendGifLoop transport k remaining (attempt + 1) (calls + 1)).calls,
         (attempt + 1) * 5 ::
           (sendGifLoop transport k remaining (attempt + 1) (calls + 1)).sleeps⟩
      else ⟨false, calls + 1, []⟩ := by
  rw [sendGifLoop_succ, h]

/-- One-step unfolding when the current send call is rate-limited. -/
theorem sendGifLoop_retryAfter_step (transport : Nat → TgResp)
    (k remaining attempt calls w : Nat) (h : transport calls = TgResp.retryAfter w) :
    sendGifLoop transport k (remaining + 1) attempt calls =
      ⟨(sendGifLoop transport k remaining (attempt + 1) (calls + 1)).ok,
       (sendGifLoop transport k remaining (attempt + 1) (calls + 1)).calls,
       w :: (sendGifLoop transport k remaining (attempt + 1) (calls + 1)).sleeps⟩ := by
  rw [sendGifLoop_succ, h]

/-- The retry loop against a transport that always answers with a rate-limit
signal of wait `w`: every iteration sleeps `w` and consumes one of the
`remaining` iterations, and when the loop is exhausted the function returns
`False`. -/
theorem sendGifLoop_retryAfter (k w : Nat) :
    ∀ remaining attempt calls,
      sendGifLoop (fun _ => TgResp.retryAfter w) k remaining attempt calls =
        ⟨false, calls + remaining, List.replicate remaining w⟩ := by
  intro remaining
  induction remaining with
  | zero => intro attempt calls; simp [sendGifLoop]
  | succ n ih =>
    intro attempt calls
    rw [sendGifLoop_retryAfter_step (fun _ => TgResp.retryAfter w) k n attempt calls w rfl,
      ih (attempt + 1) (calls + 1)]
    simp only [List.replicate_succ, SendTrace.mk.injEq, true_and, and_true]
    omega

/-- Counterexample to claim C2: with attempt budget `max_retries = 1`, a
transport whose first response is a rate-limit signal with wait 7 and whose
second response would be success yields the failure outcome after the single
mandated sleep — the rate-limited attempt consumed the only attempt slot, so
the retry the claim promises never happens and the outcome is not Delivered. -/
theorem C2_rate_limit_counterexample :
    send_gif_message (rlThenSuccess 7) 1 = ⟨false, 1, [7]⟩ := by
  decide

/-- Claim C2 (amended): a rate-limit response with wait `w` causes a sleep of
exactly `w` followed by a retry, but it does consume an attempt slot like any
other failed iteration.  For every budget `k ≥ 2`, rate-limit-then-success
yields exactly one sleep of `w` and the Delivered outcome after two calls;
and a transport answering only rate-limit signals exhausts the budget after
`k` responses (with `k` mandated sleeps) and yields the failure outcome. -/
theorem C2_rate_limit_amended (k w : Nat) (hk : 2 ≤ k) :
    send_gif_message (rlThenSuccess w) k = ⟨true, 2, [w]⟩ ∧
    send_gif_message (fun _ => TgResp.retryAfter w) k =
      ⟨false, k, List.replicate k w⟩ := by
  constructor
  · obtain ⟨m, rfl⟩ : ∃ m, k = m + 2 := ⟨k - 2, by omega⟩
    simp [send_gif_message, sendGifLoop, rlThenSuccess]
  · unfold send_gif_message
    rw [sendGifLoop_retryAfter]
    simp

/-- Witness for the amended C2 at budget 2 and wait 7. -/
theorem C2_rate_limit_amended_witness :
    send_gif_message (rlThenSuccess 7) 2 = ⟨true, 2, [7]⟩ ∧
    send_gif_message (fun _ => TgResp.retryAfter 7) 2 =
      ⟨false, 2, List.replicate 2 7⟩ :=
  C2_rate_limit_amended 2 7 (by decide)

/-- The retry loop against a transport that always times out: each of the
`remaining` iterations makes one send call; every iteration except the last
sleeps the linear backoff `(attempt + 1) * 5`, and the last returns `False`
with no further sleep. -/
theorem sendGifLoop_timeout (k : Nat) :
    ∀ remaining attempt calls, attempt + remaining = k → 1 ≤ remaining →
      sendGifLoop (fun _ => TgResp.timedOut) k remaining attempt calls =
        ⟨false, calls + remaining,
         (List.range' (attempt + 1) (remaining - 1)).map (fun i => i * 5)⟩ := by
  intro remaining
  induction remaining with
  | zero => intro attempt calls _ h; omega
  | succ n ih =>
    intro attempt calls hsum _
    rw [sendGifLoop_timedOut_step _ _ _ _ _ rfl]
    by_cases hmid : attempt < k - 1
    · have hn : 1 ≤ n := by omega
      rw [if_pos hmid, ih (attempt + 1) (calls + 1) (by omega) hn]
      obtain ⟨m, rfl⟩ : ∃ m, n = m + 1 := ⟨n - 1, by omega⟩
      simp only [List.range'_succ, List.map_cons, SendTrace.mk.injEq, true_and, and_true,
        Nat.add_sub_cancel]
      omega
    · have hn : n = 0 := by omega
      subst hn
      rw [if_neg hmid]
      simp

/-- Claim C5: for every attempt budget `k ≥ 1`, delivery against a transport
that times out on every attempt performs exactly `k` send attempts, returns
the failed outcome, and performs the backoff sleeps `5, 10, …, 5·(k-1)`
between consecutive attempts — `k - 1` sleeps, none after the last attempt. -/
theorem C5_timeout_retry_bound (k : Nat) (hk : 1 ≤ k) :
    send_gif_message (fun _ => TgResp.timedOut) k =
      ⟨false, k, (List.range' 1 (k - 1)).map (fun i => i * 5)⟩ ∧
    ((List.range' 1 (k - 1)).map (fun i => i * 5)).length = k - 1 := by
  constructor
  · unfold send_gif_message
    rw [sendGifLoop_timeout k k 0 0 (by omega) hk]
    simp
  · simp

/-- Witness for C5 at budget 3: three calls, sleeps 5 and 10, failure. -/
theorem C5_timeout_retry_bound_witness :
    send_gif_message (fun _ => TgResp.timedOut) 3 =
      ⟨false, 3, (List.range' 1 (3 - 1)).map (fun i => i * 5)⟩ ∧
    ((List.range' 1 (3 - 1)).map (fun i => i * 5)).length = 3 - 1 :=
  C5_timeout_retry_bound 3 (by decide)

/-- Claim C6: for every attempt budget `k ≥ 1`, a transport whose first
response is the terminal `BadRequest` "chat not found" makes the delivery
return the permanent-skip outcome (`False`) after exactly one send attempt,
with no backoff sleep and no further attempts. -/
theorem C6_chat_not_found_short_circuit (transport : Nat → TgResp) (k : Nat)
    (hk : 1 ≤ k) (h0 : transport 0 = TgResp.badRequest "chat not found") :
    send_gif_message transport k = ⟨false, 1, []⟩ := by
  obtain ⟨m, rfl⟩ : ∃ m, k = m + 1 := ⟨k - 1, by omega⟩
  unfold send_gif_message
  simp [sendGifLoop, h0]

/-- Witness for C6 at budget 3. -/
theorem C6_chat_not_found_witness :
    send_gif_message (fun _ => TgResp.badRequest "chat not found") 3 =
      ⟨false, 1, []⟩ :=
  C6_chat_not_found_short_circuit _ 3 (by decide) rfl

/-- The broadcast loop counts each recipient exactly once and attempts a
delivery for every recipient in order, whatever each delivery's outcome. -/
theorem dailyGifLoop_spec (send : Int → DailyResp) (l : List Int) :
    (dailyGifLoop send l).sent + (dailyGifLoop send l).failed = l.length ∧
    (dailyGifLoop send l).attempted = l := by
  induction l with
  | nil => simp [dailyGifLoop]
  | cons c rest ih =>
    obtain ⟨ih1, ih2⟩ := ih
    cases h : send c <;>
      simp only [dailyGifLoop, h, List.length_cons] <;>
      exact ⟨by omega, by rw [ih2]⟩

/-- Claim C4: for every subscriber snapshot (of any size, including empty),
one broadcast run of `send_daily_gif_message` yields
`sent_count + failed_count = N`, and every recipient is attempted in order —
a failure (raised `BadRequest` or any other exception) for one recipient is
caught inside the loop body and never skips the remaining recipients. -/
theorem C4_broadcast_counters (gif : Option Unit) (sendGif sendText : Int → DailyResp)
    (chat_ids : List Int) :
    (send_daily_gif_message gif sendGif sendText chat_ids).sent +
        (send_daily_gif_message gif sendGif sendText chat_ids).failed =
      chat_ids.length ∧
    (send_daily_gif_message gif sendGif sendText chat_ids).attempted = chat_ids :=
  dailyGifLoop_spec _ chat_ids

/-- Counterexample to claim C9: a failure while acquiring the database
session (connection failure: `connect()` re-raises at database.py line 39)
happens outside the `try` of `get_all_subscriber_ids`, so the function does
raise, the exception propagates through `run_daily_mailing` (no `try` at
scheduler.py line 81), and the daily loop's handler observes an error and
sleeps 60 seconds — observably different from a run with zero subscribers,
which returns counters (0, 0) with no error and no recovery sleep. -/
theorem C9_store_failure_counterexample :
    get_all_subscriber_ids (Except.error "connection refused") (Except.ok []) =
      Except.error "connection refused" ∧
    run_daily_mailing none (fun _ => DailyResp.ok) (fun _ => DailyResp.ok)
        (Except.error "connection refused") (Except.ok []) =
      Except.error "connection refused" ∧
    dailyLoopCycle (run_daily_mailing none (fun _ => DailyResp.ok)
        (fun _ => DailyResp.ok) (Except.error "connection refused") (Except.ok [])) =
      (none, [60]) ∧
    dailyLoopCycle (run_daily_mailing none (fun _ => DailyResp.ok)
        (fun _ => DailyResp.ok) (Except.ok ()) (Except.ok [])) =
      (some (0, 0), []) :=
  ⟨rfl, rfl, rfl, rfl⟩

/-- Claim C9 (amended): an exception raised by the row fetch itself is caught
inside `get_all_subscriber_ids` and yields the empty list, so a broadcast run
whose fetch fails is indistinguishable from a run with zero subscribers — it
sends nothing and reports no error; but an exception raised while acquiring
the database session occurs outside that `try` and propagates uncaught out of
`get_all_subscriber_ids` and out of `run_daily_mailing` to the daily loop's
error handler. -/
theorem C9_fetch_error_caught (e : String) (gif : Option Unit)
    (sendGif sendText : Int → DailyResp)
    (fetch : Except String (List SubscriberRow)) :
    get_all_subscriber_ids (Except.ok ()) (Except.error e) = Except.ok [] ∧
    run_daily_mailing gif sendGif sendText (Except.ok ()) (Except.error e) =
      run_daily_mailing gif sendGif sendText (Except.ok ()) (Except.ok []) ∧
    run_daily_mailing gif sendGif sendText (Except.ok ()) (Except.error e) =
      Except.ok (0, 0) ∧
    get_all_subscriber_ids (Except.error e) fetch = Except.error e ∧
    run_daily_mailing gif sendGif sendText (Except.error e) fetch =
      Except.error e :=
  ⟨rfl, rfl, rfl, rfl, rfl⟩

/-- Counterexample to claim C7: for the out-of-range day 0,
`find_random_gif_by_day` returns a plain `None` — the same value that means
"no content available" — rather than failing with an `InvalidArgument` error;
no error is surfaced to the caller. -/
theorem C7_invalid_day_counterexample :
    find_random_gif_by_day (fun _ => none) 0 = Except.ok none := rfl

/-- Claim C7 (amended): for every day outside 1..7 the lookup logs a warning
and returns `None` (absence) without raising any error, and for every day in
1..7 it returns the repository's item-or-absence, also without error. -/
theorem C7_day_validation (repo : Int → Option SkufGif) (day : Int) :
    ((day < 1 ∨ 7 < day) → find_random_gif_by_day repo day = Except.ok none) ∧
    (1 ≤ day → day ≤ 7 → find_random_gif_by_day repo day = Except.ok (repo day)) := by
  constructor
  · intro h
    unfold find_random_gif_by_day
    rw [if_pos h]
  · intro h1 h7
    unfold find_random_gif_by_day
    rw [if_neg (by omega)]

/-- Witness for the amended C7 at days 0 and 3. -/
theorem C7_day_validation_witness :
    find_random_gif_by_day (fun _ => none) (-2) = Except.ok none ∧
    find_random_gif_by_day (fun d => some ⟨some 1, some "abc", none, some d⟩) 3 =
      Except.ok (some ⟨some 1, some "abc", none, some 3⟩) :=
  ⟨(C7_day_validation (fun _ => none) (-2)).1 (by omega),
   (C7_day_validation (fun d => some ⟨some 1, some "abc", none, some d⟩) 3).2
     (by omega) (by omega)⟩

/-- Claim C8: calling `start()` twice from a stopped state (with no daily job
yet in the task set) gives the same scheduler state as calling it once — the
second call is a no-op — and that state is running with exactly one daily-loop
job in the task set. -/
theorem C8_start_idempotent (s : SchedulerState) (h : s.is_running = false)
    (hd : Job.dailyLoop ∉ s.scheduled_tasks) :
    start (start s) = start s ∧
    (start (start s)).scheduled_tasks.count Job.dailyLoop = 1 ∧
    (start (start s)).is_running = true := by
  have hrun : ∀ t : SchedulerState, t.is_running = true → start t = t := by
    intro t ht
    unfold start
    rw [ht]
    simp
  have h1 : (start s).is_running = true := by
    simp [start, h]
  have h2 : start (start s) = start s := hrun (start s) h1
  refine ⟨h2, ?_, by rw [h2]; exact h1⟩
  rw [h2]
  unfold start
  rw [if_neg (by simp [h])]
  cases hdm : s.debug_mode <;>
    simp [hdm, List.count_append, List.count_eq_zero.mpr hd, List.count_singleton,
      List.count_cons, List.count_nil]

/-- Witness for C8 from a freshly constructed non-debug scheduler. -/
theorem C8_start_idempotent_witness :
    start (start (SchedulerState.init false)) = start (SchedulerState.init false) ∧
    (start (start (SchedulerState.init false))).scheduled_tasks.count Job.dailyLoop = 1 ∧
    (start (start (SchedulerState.init false))).is_running = true :=
  C8_start_idempotent (SchedulerState.init false) rfl (by simp [SchedulerState.init])

/-- Claim C3 (modelled from the spec, `add_custom_task` being absent from
src/scheduler.py): registration fails with `InvalidArgument` for every
interval ≤ 0; for every interval > 0 it appends the new job to the managed
task set; the registered loop, while the running flag stays set, repeatedly
waits the interval and then invokes the action, and it stops without waiting
or invoking as soon as the flag is observed unset. -/
theorem C3_add_custom_task (s : SchedulerState) (interval : Int) :
    (interval ≤ 0 → add_custom_task s interval = Except.error SchedErr.invalidArgument) ∧
    (0 < interval →
      add_custom_task s interval =
        Except.ok { s with
          scheduled_tasks := s.scheduled_tasks ++ [Job.custom interval] }) ∧
    (∀ fuel, customTaskLoop (fun _ => true) interval fuel =
      (List.replicate fuel [JobEvent.wait interval, JobEvent.invoke]).flatten) ∧
    (∀ running fuel, running 0 = false → customTaskLoop running interval fuel = []) := by
  refine ⟨?_, ?_, ?_, ?_⟩
  · intro h
    unfold add_custom_task
    rw [if_pos h]
  · intro h
    unfold add_custom_task
    rw [if_neg (by omega)]
  · intro fuel
    induction fuel with
    | zero => simp [customTaskLoop]
    | succ n ih => simp [customTaskLoop, ih, List.replicate_succ]
  · intro running fuel h
    cases fuel with
    | zero => simp [customTaskLoop]
    | succ n => simp [customTaskLoop, h]

/-- Witness for C3: rejection at interval -1, registration at interval 10,
two unrolled cycles of the loop, and the cooperative stop. -/
theorem C3_add_custom_task_witness :
    add_custom_task (SchedulerState.init false) (-1) =
      Except.error SchedErr.invalidArgument ∧
    add_custom_task (SchedulerState.init false) 10 =
      Except.ok ⟨false, false, [Job.custom 10]⟩ ∧
    customTaskLoop (fun _ => true) 10 2 =
      [JobEvent.wait 10, JobEvent.invoke, JobEvent.wait 10, JobEvent.invoke] ∧
    customTaskLoop (fun _ => false) 10 5 = [] :=
  ⟨(C3_add_custom_task (SchedulerState.init false) (-1)).1 (by decide),
   (C3_add_custom_task (SchedulerState.init false) 10).2.1 (by decide),
   (C3_add_custom_task (SchedulerState.init false) 10).2.2.1 2,
   (C3_add_custom_task (SchedulerState.init false) 10).2.2.2 (fun _ => false) 5 rfl⟩

/-- The day values that `SkufGif.__post_init__` (src/models.py lines 39-42)
accepts without raising `ValueError`: `None` or a day in 1..7. -/
def validDay : Option Int → Bool
  | none => true
  | some d => decide (1 ≤ d ∧ d ≤ 7)

/-- Constructing a `SkufGif` with a valid day succeeds and keeps its fields. -/
theorem mk?_of_validDay (id : Option Nat) (fid descr : Option String)
    (day : Option Int) (h : validDay day = true) :
    SkufGif.mk? id fid descr day = Except.ok ⟨id, fid, descr, day⟩ := by
  cases day with
  | none => rfl
  | some d =>
    have hv : ¬(d < 1 ∨ d > 7) := by
      simp only [validDay, decide_eq_true_eq] at h
      omega
    simp [SkufGif.mk?, hv]

/-- Counterexample to claim C10: the claim quantifies over every `day`, but
for the out-of-range day 0 and a `file_id` not yet in the store, `save_gif`
raises `ValueError` from the `SkufGif` constructor instead of inserting and
returning a record, so on that input neither of two consecutive calls returns
a record with the given `file_id`. -/
theorem C10_save_gif_counterexample :
    save_gif ⟨[], 1⟩ "f1" none (some 0) = Except.error PyErr.valueError := rfl

/-- Claim C10 (amended): for every `file_id` and `description`, provided the
first call's `day` is accepted by the `SkufGif` validation (`None` or 1..7),
`save_gif` is idempotent in `file_id`: the first call returns a record
carrying that `file_id` (the existing one, with no insert, when one is
already stored), and a second call with the same `file_id` — with any
arguments — leaves the store exactly as after the first call and again
returns a record with that `file_id`. -/
theorem C10_save_gif_idempotent (store : GifStore) (fid : String)
    (d1 d2 : Option String) (day1 day2 : Option Int)
    (h1 : validDay day1 = true) :
    ∃ store1 g1 g2,
      save_gif store fid d1 day1 = Except.ok (store1, g1) ∧
      save_gif store1 fid d2 day2 = Except.ok (store1, g2) ∧
      g1.file_id = some fid ∧ g2.file_id = some fid ∧
      (∀ g0, find_by_file_id store fid = some g0 → store1 = store ∧ g1 = g0) := by
  cases hf : find_by_file_id store fid with
  | some g0 =>
    have hp : g0.file_id = some fid := by
      have := List.find?_some hf
      simpa using this
    refine ⟨store, g0, g0, ?_, ?_, hp, hp, ?_⟩
    · simp [save_gif, hf]
    · simp [save_gif, hf]
    · intro g0' h0'
      injection h0' with hg
      exact ⟨rfl, hg⟩
  | none =>
    have hmk := mk?_of_validDay none (some fid) d1 day1 h1
    have hfind :
        find_by_file_id
          ⟨store.rows ++ [⟨some store.next_id, some fid, d1, day1⟩], store.next_id + 1⟩
          fid =
        some ⟨some store.next_id, some fid, d1, day1⟩ := by
      unfold find_by_file_id at hf ⊢
      rw [List.find?_append, hf]
      simp
    refine ⟨⟨store.rows ++ [⟨some store.next_id, some fid, d1, day1⟩], store.next_id + 1⟩,
            ⟨some store.next_id, some fid, d1, day1⟩,
            ⟨some store.next_id, some fid, d1, day1⟩, ?_, ?_, rfl, rfl, ?_⟩
    · simp [save_gif, hf, hmk, GifRepository.save]
    · simp [save_gif, hfind]
    · intro g0 h0
      simp at h0

/-- Witness for the amended C10: an empty store, `file_id` "f1", two calls
with different descriptions and days. -/
theorem C10_save_gif_idempotent_witness :
    ∃ store1 g1 g2,
      save_gif ⟨[], 1⟩ "f1" none (some 3) = Except.ok (store1, g1) ∧
      save_gif store1 "f1" (some "d") (some 5) = Except.ok (store1, g2) ∧
      g1.file_id = some "f1" ∧ g2.file_id = some "f1" ∧
      (∀ g0, find_by_file_id ⟨[], 1⟩ "f1" = some g0 → store1 = ⟨[], 1⟩ ∧ g1 = g0) :=
  C10_save_gif_idempotent ⟨[], 1⟩ "f1" none (some "d") (some 3) (some 5)
    (by decide)

end Skufobot
